import Mathlib

/- Shallow embedding of the agno-api agent hierarchy service.
   Sources: app/models/instance.py, app/routes/agent.py, app/services/agent_manager.py.
   Machine timestamps are modelled as Nat clock values passed explicitly to each
   operation; fresh uuid4 identifiers are modelled as explicitly supplied fresh
   strings; the external agno execution engine (team.run) is modelled as an
   opaque String-to-String parameter. -/

/- ===== app/models/instance.py ===== -/

/-- ModelProvider(str, Enum) with values "openai", "claude", "gemini", "groq". -/
inductive ModelProvider
  | OPENAI
  | CLAUDE
  | GEMINI
  | GROQ
deriving DecidableEq, Repr

/-- ToolType(str, Enum) with member names DUCKDUCKGO and YFINANCE. -/
inductive ToolType
  | DUCKDUCKGO
  | YFINANCE
deriving DecidableEq, Repr

/-- ToolConfig: type plus optional tool-specific config dict.  The config dict
values that the code ever supplies or defaults are booleans, so the dict is
modelled as an association list of String to Bool. -/
structure ToolConfig where
  type : ToolType
  config : Option (List (String × Bool)) := none
deriving DecidableEq, Repr

/-- HierarchicalAgentConfig from app/models/instance.py. -/
structure HierarchicalAgentConfig where
  agent_id : String
  name : String
  role : String
  model_provider : ModelProvider := ModelProvider.GEMINI
  model_id : String := "gemini-1.5-flash"
  tools : List ToolConfig := []
  parent_id : Option String := none
deriving DecidableEq, Repr

/-- The default value of AgentInstance.router_instructions. -/
def defaultRouterInstructions : String :=
  "Você é o coordenador de uma equipe de especialistas. Sua função é analisar a " ++
  "solicitação do usuário, delegar a tarefa para o membro da equipe mais qualificado e, em seguida, " ++
  "apresentar a resposta final do especialista de forma clara e direta para o usuário. " ++
  "Se a solicitação for uma continuação da conversa, leve o histórico em consideração."

/-- AgentInstance document (beanie Document, unique index on (user_id, instance_id)).
created_at/updated_at are datetime fields modelled as Nat clock readings. -/
structure AgentInstance where
  user_id : String
  instance_id : String
  router_instructions : String := defaultRouterInstructions
  agents : List HierarchicalAgentConfig := []
  created_at : Nat
  updated_at : Nat
deriving DecidableEq, Repr

instance : Inhabited AgentInstance :=
  ⟨{ user_id := "", instance_id := "", created_at := 0, updated_at := 0 }⟩

/-- AgentInstance(user_id=..., instance_id=...) with every other field left to
its default, as constructed on the get_or_create_team auto-provisioning path. -/
def AgentInstance.defaultDoc (u i : String) (now : Nat) : AgentInstance :=
  { user_id := u, instance_id := i, created_at := now, updated_at := now }

/- ===== app/routes/agent.py : normalize_agent ===== -/

/-- The possible runtime shapes of the raw model_provider value: a string, an
already-typed ModelProvider enum, or any other Python value (None, int, ...). -/
inductive RawProviderVal
  | str (s : String)
  | enum (p : ModelProvider)
  | other
deriving DecidableEq, Repr

/-- Python str.lower() (ASCII-relevant part), modelled characterwise. -/
def strLower (s : String) : String := String.mk (s.data.map Char.toLower)

/-- Python str.upper() (ASCII-relevant part), modelled characterwise. -/
def strUpper (s : String) : String := String.mk (s.data.map Char.toUpper)

/-- ModelProvider(value) lookup: pydantic str-enum lookup by value. -/
def parseProviderString (s : String) : Option ModelProvider :=
  if s = "openai" then some ModelProvider.OPENAI
  else if s = "claude" then some ModelProvider.CLAUDE
  else if s = "gemini" then some ModelProvider.GEMINI
  else if s = "groq" then some ModelProvider.GROQ
  else none

/-- Lines 67-78 of app/routes/agent.py: agent_data.get("model_provider", "gemini"),
then lowercase-string lookup by enum value (a recognized string is accepted, so
the absent-key case succeeds via the default "gemini" string), pass-through for
an already-typed enum.  Both fallback branches — the ValueError handler of line
74 and the else branch of line 78 — evaluate the expression ModelProvider.gemini;
the member is named GEMINI and enum attribute access is case-sensitive, so that
expression raises AttributeError, which nothing catches (only ValueError is):
those paths abort normalization, modelled as Except.error.
The argument is none when the key is absent from the raw dict. -/
def normalizeProvider (v : Option RawProviderVal) : Except String ModelProvider :=
  match v.getD (RawProviderVal.str "gemini") with
  | RawProviderVal.str s =>
      match parseProviderString (strLower s) with
      | some p => Except.ok p
      | none => Except.error "AttributeError: ModelProvider has no attribute gemini"
  | RawProviderVal.enum p => Except.ok p
  | RawProviderVal.other => Except.error "AttributeError: ModelProvider has no attribute gemini"

/-- The runtime shapes of the "type" value inside a raw tool dict. -/
inductive RawToolTypeVal
  | str (s : String)
  | enum (t : ToolType)
deriving DecidableEq, Repr

/-- The three runtime shapes of a raw tool entry: bare string, dict (with an
optional "type" entry and an optional "config" entry), or typed ToolConfig. -/
inductive RawTool
  | str (s : String)
  | record (type : Option RawToolTypeVal) (config : Option (List (String × Bool)))
  | spec (t : ToolConfig)
deriving DecidableEq, Repr

/-- ToolType[name] lookup by enum member name (raises KeyError when absent,
modelled as none). -/
def toolTypeOfName (s : String) : Option ToolType :=
  if s = "DUCKDUCKGO" then some ToolType.DUCKDUCKGO
  else if s = "YFINANCE" then some ToolType.YFINANCE
  else none

/-- Lines 87-106 of app/routes/agent.py: one iteration of the tool-normalization
loop.  none means the entry is skipped (the code logs a warning and drops it). -/
def normalizeToolEntry (t : RawTool) : Option ToolConfig :=
  match t with
  | RawTool.str s => (toolTypeOfName (strUpper s)).map (fun tt => { type := tt })
  | RawTool.record ty cfg =>
      match ty with
      | some (RawToolTypeVal.str s) =>
          (toolTypeOfName (strUpper s)).map (fun tt => { type := tt, config := cfg })
      | some (RawToolTypeVal.enum tt) => some { type := tt, config := cfg }
      | none => none
  | RawTool.spec tc => some tc

/-- The full tool-normalization loop: dropped entries vanish, order is kept. -/
def normalizeTools (ts : List RawTool) : List ToolConfig :=
  ts.filterMap normalizeToolEntry

/-- A raw agent dict as received by normalize_agent.  none models an absent key
(or an explicit None where the code treats the two alike via .get). -/
structure RawAgent where
  agent_id : Option String
  name : Option String
  role : Option String
  model_provider : Option RawProviderVal
  model_id : Option String
  tools : List RawTool
  parent_id : Option String
deriving DecidableEq, Repr

/-- The dict produced by normalize_agent: provider, model_id and tools are now
typed, name/role are whatever the client sent. -/
structure NormalizedAgentData where
  agent_id : String
  name : Option String
  role : Option String
  model_provider : ModelProvider
  model_id : String
  tools : List ToolConfig
  parent_id : Option String
deriving DecidableEq, Repr

/-- normalize_agent from app/routes/agent.py.  freshId models the str(uuid.uuid4())
drawn when agent_id is absent or empty (both are falsy in Python).  The function
raises (Except.error) exactly when the provider normalization does: the
AttributeError of the ModelProvider.gemini fallback propagates out of
normalize_agent before the model_id and tools steps run, so nothing of the
partially mutated dict survives. -/
def normalize_agent (freshId : String) (a : RawAgent) : Except String NormalizedAgentData :=
  match normalizeProvider a.model_provider with
  | Except.error e => Except.error e
  | Except.ok p =>
      Except.ok
        { agent_id :=
            match a.agent_id with
            | some s => if s = "" then freshId else s
            | none => freshId,
          name := a.name,
          role := a.role,
          model_provider := p,
          model_id :=
            match a.model_id with
            | some s => if s = "" then "gemini-1.5-flash" else s
            | none => "gemini-1.5-flash",
          tools := normalizeTools a.tools,
          parent_id := a.parent_id }

/-- HierarchicalAgentConfig(**normalized): pydantic requires name and role;
a missing one raises ValidationError, modelled as Except.error. -/
def configOfNormalized (d : NormalizedAgentData) : Except String HierarchicalAgentConfig :=
  match d.name, d.role with
  | some n, some r =>
      Except.ok { agent_id := d.agent_id, name := n, role := r,
                  model_provider := d.model_provider, model_id := d.model_id,
                  tools := d.tools, parent_id := d.parent_id }
  | _, _ => Except.error "validation error: name and role are required"

/-- The list comprehension of line 119 of app/routes/agent.py; the idx argument
supplies the distinct fresh uuid strings. -/
def normalizeAgentsAux (idx : Nat) (l : List RawAgent) : Except String (List HierarchicalAgentConfig) :=
  match l with
  | [] => Except.ok []
  | a :: rest =>
      match normalize_agent ("generated-uuid-" ++ toString idx) a with
      | Except.error e => Except.error e
      | Except.ok d =>
          match configOfNormalized d with
          | Except.error e => Except.error e
          | Except.ok c =>
              match normalizeAgentsAux (idx + 1) rest with
              | Except.error e => Except.error e
              | Except.ok cs => Except.ok (c :: cs)

/- ===== app/services/agent_manager.py : runtime object graph ===== -/

/-- The agno model objects constructed by AgentManager._create_model. -/
inductive ModelRt
  | openaiChat (id : String)
  | claude (id : String)
  | gemini (id : String)
  | groq (id : String)
deriving DecidableEq, Repr

/-- AgentManager._create_model: the if/elif chain ending in the defensive
Gemini("gemini-1.5-flash") fallback. -/
def create_model (provider : ModelProvider) (model_id : String) : ModelRt :=
  if provider = ModelProvider.OPENAI then ModelRt.openaiChat model_id
  else if provider = ModelProvider.CLAUDE then ModelRt.claude model_id
  else if provider = ModelProvider.GEMINI then ModelRt.gemini model_id
  else if provider = ModelProvider.GROQ then ModelRt.groq model_id
  else ModelRt.gemini "gemini-1.5-flash"

/-- The agno tool instances constructed by AgentManager._create_tools. -/
inductive ToolRt
  | duckduckgo (params : List (String × Bool))
  | yfinance (params : List (String × Bool))
deriving DecidableEq, Repr

/-- The fixed YFinance capability defaults of _create_tools. -/
def yfinanceDefaults : List (String × Bool) :=
  [("stock_price", true), ("analyst_recommendations", true),
   ("company_info", true), ("company_news", true)]

/-- Python dict merge of two dicts d and p as in the expression that spreads d
then p: keys of d keep their position (values overridden by p on conflict),
then keys only in p follow in order. -/
def dictMerge (d p : List (String × Bool)) : List (String × Bool) :=
  (d.map (fun kv =>
    match p.lookup kv.1 with
    | some v => (kv.1, v)
    | none => kv)) ++
  p.filter (fun kv => (d.lookup kv.1) = none)

/-- AgentManager._create_tools: per-entry dispatch on ToolType; YFinance layers
caller params over the fixed defaults; unknown kinds would fall through the
if/elif chain and be skipped (the enum currently has only the two kinds). -/
def create_tools (tcs : List ToolConfig) : List ToolRt :=
  tcs.filterMap (fun tc =>
    let params := tc.config.getD []
    match tc.type with
    | ToolType.DUCKDUCKGO => some (ToolRt.duckduckgo params)
    | ToolType.YFINANCE => some (ToolRt.yfinance (dictMerge yfinanceDefaults params)))

/-- One agno Agent as built inside get_or_create_team. -/
structure AgentRt where
  name : String
  role : String
  model : ModelRt
  tools : List ToolRt
  add_datetime_to_instructions : Bool
  markdown : Bool
  show_tool_calls : Bool
deriving DecidableEq, Repr

/-- One agno Team object.  allocId models Python object identity: every Team(...)
call yields a fresh allocId, so two structurally identical builds are still
distinguishable, exactly as two distinct Python objects are. -/
structure Team where
  allocId : Nat
  name : String
  members : List AgentRt
  mode : String
  model : ModelRt
  storage_collection : String
  instructions : String
  add_history_to_messages : Bool
  session_id : Option String
deriving DecidableEq, Repr

/-- Lines 77-106 of agent_manager.py: assembling the Team object graph from a
persisted AgentInstance.  alloc is the object identity given to the new Team. -/
def assembleTeam (inst : AgentInstance) (alloc : Nat) : Team :=
  { allocId := alloc,
    name := "Team_" ++ inst.instance_id,
    members := inst.agents.map (fun ac =>
      { name := ac.name, role := ac.role,
        model := create_model ac.model_provider ac.model_id,
        tools := create_tools ac.tools,
        add_datetime_to_instructions := true, markdown := true, show_tool_calls := true }),
    mode := "coordinate",
    model := ModelRt.gemini "gemini-1.5-flash",
    storage_collection := "team_sessions_" ++ inst.user_id ++ "_" ++ inst.instance_id,
    instructions := inst.router_instructions,
    add_history_to_messages := true,
    session_id := none }

/- ===== app/services/agent_manager.py : cache, store, operations ===== -/

/-- self.teams_cache: a Python dict, modelled extensionally as a map function. -/
def TeamsCache : Type := String → Option Team

def emptyCache : TeamsCache := fun _ => none

def cacheLookup (c : TeamsCache) (k : String) : Option Team := c k

/-- dict assignment self.teams_cache[k] = t. -/
def cacheInsert (c : TeamsCache) (k : String) (t : Team) : TeamsCache :=
  fun k2 => if k2 = k then some t else c k2

/-- the guarded del self.teams_cache[k] of lines 144-145 (extensionally the
guard is irrelevant: the key maps to none afterwards either way). -/
def cacheDelete (c : TeamsCache) (k : String) : TeamsCache :=
  fun k2 => if k2 = k then none else c k2

/-- AgentManager._get_cache_key. -/
def getCacheKey (user_id instance_id : String) : String :=
  user_id ++ ":" ++ instance_id

/-- AgentInstance.find_one(user_id == u, instance_id == i) over the document
store, modelled as first match in a list of documents. -/
def findOne (db : List AgentInstance) (u i : String) : Option AgentInstance :=
  match db with
  | [] => none
  | d :: rest =>
      if d.user_id = u ∧ d.instance_id = i then some d else findOne rest u i

/-- instance.save(): replace the document with the same (user_id, instance_id)
key if present (the collection has a unique index on that pair), else insert. -/
def saveDoc (db : List AgentInstance) (inst : AgentInstance) : List AgentInstance :=
  match db with
  | [] => [inst]
  | d :: rest =>
      if d.user_id = inst.user_id ∧ d.instance_id = inst.instance_id
      then inst :: rest
      else d :: saveDoc rest inst

/-- The shared mutable state of AgentManager plus the backing document store.
nextAlloc is the allocator for Team object identities. -/
structure ManagerState where
  teams_cache : TeamsCache
  db : List AgentInstance
  nextAlloc : Nat

/-- AgentManager.get_or_create_team, sequential semantics (one call running
alone): cache hit returns the cached Team unchanged; on a miss the current
config is loaded (auto-provisioning a default document when absent), a Team
is assembled with a fresh identity, inserted into the cache and returned. -/
def get_or_create_team (st : ManagerState) (u i : String) (now : Nat) : Team × ManagerState :=
  match cacheLookup st.teams_cache (getCacheKey u i) with
  | some t => (t, st)
  | none =>
      match findOne st.db u i with
      | some inst =>
          let t := assembleTeam inst st.nextAlloc
          (t, { st with teams_cache := cacheInsert st.teams_cache (getCacheKey u i) t,
                        nextAlloc := st.nextAlloc + 1 })
      | none =>
          let inst := AgentInstance.defaultDoc u i now
          let t := assembleTeam inst st.nextAlloc
          (t, { teams_cache := cacheInsert st.teams_cache (getCacheKey u i) t,
                db := saveDoc st.db inst,
                nextAlloc := st.nextAlloc + 1 })

/-- The hierarchy_updates dict built on lines 121-124 of app/routes/agent.py:
both keys are always present, with possibly-None values. -/
structure HierarchyUpdates where
  router_instructions : Option String
  agents : Option (List HierarchicalAgentConfig)
deriving DecidableEq, Repr

/-- Lines 130-139 of agent_manager.py: wholesale agents replacement when the
value is not None, then per-key setattr for the remaining non-None values. -/
def mergeInstance (inst : AgentInstance) (upd : HierarchyUpdates) : AgentInstance :=
  let inst1 :=
    match upd.agents with
    | some l => { inst with agents := l }
    | none => inst
  match upd.router_instructions with
  | some s => { inst1 with router_instructions := s }
  | none => inst1

/-- AgentInstance(**kwargs) as called on the create path (line 129 of
agent_manager.py).  The outer Option is key presence, the inner Option is the
value: an absent key takes the field default, while an explicit None value is
rejected by pydantic validation (the fields are non-Optional). -/
def instanceConstruct (u i : String) (ri : Option (Option String))
    (ags : Option (Option (List HierarchicalAgentConfig))) (now : Nat) :
    Except String AgentInstance :=
  match ri with
  | some none => Except.error "validation error: router_instructions may not be None"
  | _ =>
      match ags with
      | some none => Except.error "validation error: agents may not be None"
      | _ =>
          Except.ok { user_id := u, instance_id := i,
                      router_instructions := (ri.getD (some defaultRouterInstructions)).getD defaultRouterInstructions,
                      agents := (ags.getD (some [])).getD [],
                      created_at := now, updated_at := now }

/-- Lines 141-147 of agent_manager.py: persist the document, then evict the
cache entry for the key. -/
def postSave (st : ManagerState) (u i : String) (inst : AgentInstance) : ManagerState :=
  { st with db := saveDoc st.db inst,
            teams_cache := cacheDelete st.teams_cache (getCacheKey u i) }

/-- AgentManager.update_instance_hierarchy as invoked by the /hierarchy route
(the updates dict always carries both keys).  Except.ok models the True return;
Except.error models a raised exception (pydantic ValidationError). -/
def update_instance_hierarchy (st : ManagerState) (u i : String)
    (upd : HierarchyUpdates) (now : Nat) : Except String ManagerState :=
  match findOne st.db u i with
  | none =>
      match instanceConstruct u i (some upd.router_instructions) (some upd.agents) now with
      | Except.error e => Except.error e
      | Except.ok inst => Except.ok (postSave st u i inst)
  | some inst => Except.ok (postSave st u i (mergeInstance inst upd))

/-- The PUT /hierarchy request body. -/
structure HierarchyUpdateRequest where
  user_id : String
  instance_id : String
  router_instructions : Option String
  agents : Option (List RawAgent)
deriving DecidableEq, Repr

/-- update_agent_hierarchy from app/routes/agent.py: agents are normalized only
when the request list is truthy (non-None AND non-empty — Python truthiness of
a list), then handed with router_instructions to the manager. -/
def update_agent_hierarchy (st : ManagerState) (req : HierarchyUpdateRequest)
    (now : Nat) : Except String ManagerState :=
  match req.agents with
  | some l =>
      if l.isEmpty then
        update_instance_hierarchy st req.user_id req.instance_id
          { router_instructions := req.router_instructions, agents := none } now
      else
        match normalizeAgentsAux 0 l with
        | Except.error e => Except.error e
        | Except.ok cs =>
            update_instance_hierarchy st req.user_id req.instance_id
              { router_instructions := req.router_instructions, agents := some cs } now
  | none =>
      update_instance_hierarchy st req.user_id req.instance_id
        { router_instructions := req.router_instructions, agents := none } now

/-- Extract the success state of an update, none on a raised exception. -/
def okState (e : Except String ManagerState) : Option ManagerState :=
  match e with
  | Except.ok s => some s
  | Except.error _ => none

/- ===== app/routes/agent.py : chat ===== -/

structure ChatRequest where
  user_id : String
  instance_id : String
  whatsapp_number : String
  username : String
  message : String
  session_id : Option String
deriving DecidableEq, Repr

structure ChatResponse where
  response : String
  session_id : String
  success : Bool
deriving DecidableEq, Repr

/-- chat_with_agent from app/routes/agent.py: fetch (or build) the team, assign
team.session_id := request.whatsapp_number (the assignment mutates the cached
object, modelled by writing the updated Team back into the cache entry), run
the engine on the contextualised message, and answer with the team's session id.
run models the external execution engine team.run. -/
def chat_with_agent (st : ManagerState) (req : ChatRequest) (now : Nat)
    (run : String → String) : ChatResponse × ManagerState :=
  let r := get_or_create_team st req.user_id req.instance_id now
  let team1 := { r.1 with session_id := some req.whatsapp_number }
  let st2 := { r.2 with
    teams_cache := cacheInsert r.2.teams_cache (getCacheKey req.user_id req.instance_id) team1 }
  let msg := "O nome do cliente é " ++ req.username ++ ". Mensagem do cliente: " ++ req.message
  ({ response := run msg, session_id := req.whatsapp_number, success := true }, st2)

/- ===== Interleaving semantics of get_or_create_team for concurrent calls ===== -/

/-- The control point of one in-flight get_or_create_team coroutine.  The
atomic blocks are delimited by the await points of the Python code (the
find_one await of line 68 and the save await of line 75); everything between
two awaits runs without interleaving. -/
inductive CoSt
  | start
  | awaitFind
  | awaitSave (inst : AgentInstance)
  | done (t : Team)
  | failed
deriving DecidableEq, Repr

/-- One atomic block of get_or_create_team for key (u, i), run against the
shared manager state.  From start: the synchronous cache check, then suspend on
find_one.  From awaitFind: the find_one result is delivered; a found document
is assembled, cached and returned with no further suspension; an absent one
leads to a save suspension carrying the freshly constructed default document.
From awaitSave: the insert (failing on the unique (user_id, instance_id) index
if another coroutine saved first), then assembly, cache insert and return. -/
def coStep (u i : String) (now : Nat) (sh : ManagerState) (c : CoSt) : ManagerState × CoSt :=
  match c with
  | CoSt.start =>
      match cacheLookup sh.teams_cache (getCacheKey u i) with
      | some t => (sh, CoSt.done t)
      | none => (sh, CoSt.awaitFind)
  | CoSt.awaitFind =>
      match findOne sh.db u i with
      | some inst =>
          let t := assembleTeam inst sh.nextAlloc
          ({ sh with teams_cache := cacheInsert sh.teams_cache (getCacheKey u i) t,
                     nextAlloc := sh.nextAlloc + 1 }, CoSt.done t)
      | none => (sh, CoSt.awaitSave (AgentInstance.defaultDoc u i now))
  | CoSt.awaitSave inst =>
      if (findOne sh.db u i).isSome then (sh, CoSt.failed)
      else
        let sh1 := { sh with db := sh.db ++ [inst] }
        let t := assembleTeam inst sh1.nextAlloc
        ({ sh1 with teams_cache := cacheInsert sh1.teams_cache (getCacheKey u i) t,
                    nextAlloc := sh1.nextAlloc + 1 }, CoSt.done t)
  | CoSt.done t => (sh, CoSt.done t)
  | CoSt.failed => (sh, CoSt.failed)

/-- Two concurrent get_or_create_team calls for the same key over shared state. -/
structure TwoCalls where
  shared : ManagerState
  co0 : CoSt
  co1 : CoSt

/-- Run one atomic block of the scheduled coroutine (false = first call). -/
def schedStep (u i : String) (now : Nat) (s : TwoCalls) (who : Bool) : TwoCalls :=
  if who then
    let r := coStep u i now s.shared s.co1
    { shared := r.1, co0 := s.co0, co1 := r.2 }
  else
    let r := coStep u i now s.shared s.co0
    { shared := r.1, co0 := r.2, co1 := s.co1 }

/-- Run a whole schedule, one atomic block per entry. -/
def runSched (u i : String) (now : Nat) (sched : List Bool) (s : TwoCalls) : TwoCalls :=
  match sched with
  | [] => s
  | b :: bs => runSched u i now bs (schedStep u i now s b)

/- ===== helper lemmas ===== -/

theorem cacheLookup_insert_self (c : TeamsCache) (k : String) (t : Team) :
    cacheLookup (cacheInsert c k t) k = some t := by
  simp [cacheLookup, cacheInsert]

theorem cacheLookup_delete_self (c : TeamsCache) (k : String) :
    cacheLookup (cacheDelete c k) k = none := by
  simp [cacheLookup, cacheDelete]

theorem findOne_eq_some {db : List AgentInstance} {u i : String} {d : AgentInstance}
    (h : findOne db u i = some d) : d.user_id = u ∧ d.instance_id = i := by
  induction db with
  | nil => simp [findOne] at h
  | cons d0 rest ih =>
      rw [findOne] at h
      by_cases hc : d0.user_id = u ∧ d0.instance_id = i
      · rw [if_pos hc] at h
        cases h
        exact hc
      · rw [if_neg hc] at h
        exact ih h

theorem findOne_saveDoc (db : List AgentInstance) (inst : AgentInstance) :
    findOne (saveDoc db inst) inst.user_id inst.instance_id = some inst := by
  induction db with
  | nil => simp [saveDoc, findOne]
  | cons d rest ih =>
      rw [saveDoc]
      by_cases hc : d.user_id = inst.user_id ∧ d.instance_id = inst.instance_id
      · rw [if_pos hc, findOne, if_pos ⟨rfl, rfl⟩]
      · rw [if_neg hc, findOne, if_neg hc]
        exact ih

theorem mergeInstance_user_id (inst : AgentInstance) (upd : HierarchyUpdates) :
    (mergeInstance inst upd).user_id = inst.user_id := by
  unfold mergeInstance
  cases upd.agents <;> cases upd.router_instructions <;> rfl

theorem mergeInstance_instance_id (inst : AgentInstance) (upd : HierarchyUpdates) :
    (mergeInstance inst upd).instance_id = inst.instance_id := by
  unfold mergeInstance
  cases upd.agents <;> cases upd.router_instructions <;> rfl

theorem mergeInstance_agents (inst : AgentInstance) (upd : HierarchyUpdates) :
    (mergeInstance inst upd).agents = upd.agents.getD inst.agents := by
  unfold mergeInstance
  cases upd.agents <;> cases upd.router_instructions <;> rfl

theorem mergeInstance_router (inst : AgentInstance) (upd : HierarchyUpdates) :
    (mergeInstance inst upd).router_instructions =
      upd.router_instructions.getD inst.router_instructions := by
  unfold mergeInstance
  cases upd.agents <;> cases upd.router_instructions <;> rfl

theorem mergeInstance_updated_at (inst : AgentInstance) (upd : HierarchyUpdates) :
    (mergeInstance inst upd).updated_at = inst.updated_at := by
  unfold mergeInstance
  cases upd.agents <;> cases upd.router_instructions <;> rfl

theorem instanceConstruct_ok_ids {u i : String} {ri : Option (Option String)}
    {ags : Option (Option (List HierarchicalAgentConfig))} {now : Nat} {inst : AgentInstance}
    (h : instanceConstruct u i ri ags now = Except.ok inst) :
    inst.user_id = u ∧ inst.instance_id = i := by
  unfold instanceConstruct at h
  rcases ri with _ | ⟨_ | s⟩ <;> rcases ags with _ | ⟨_ | l⟩ <;>
    simp only [] at h <;> (cases h <;> exact ⟨rfl, rfl⟩)

/-- Every successful update leaves the state in postSave form for a document
whose key fields match the call. -/
theorem update_shape {st : ManagerState} {u i : String} {upd : HierarchyUpdates}
    {now : Nat} {st' : ManagerState}
    (h : update_instance_hierarchy st u i upd now = Except.ok st') :
    ∃ inst : AgentInstance, inst.user_id = u ∧ inst.instance_id = i ∧
      st' = postSave st u i inst := by
  unfold update_instance_hierarchy at h
  cases hf : findOne st.db u i with
  | none =>
      rw [hf] at h
      cases hc : instanceConstruct u i (some upd.router_instructions) (some upd.agents) now with
      | error e => rw [hc] at h; cases h
      | ok inst0 =>
          rw [hc] at h
          obtain ⟨hu, hi⟩ := instanceConstruct_ok_ids hc
          cases h
          exact ⟨inst0, hu, hi, rfl⟩
  | some inst0 =>
      rw [hf] at h
      obtain ⟨hu, hi⟩ := findOne_eq_some hf
      cases h
      exact ⟨mergeInstance inst0 upd, by rw [mergeInstance_user_id, hu],
             by rw [mergeInstance_instance_id, hi], rfl⟩

/- ===== Claim C1 ===== -/

/-- Claim C1: after update_instance_hierarchy returns successfully for a
(user_id, instance_id) key, the cache entry for that key is gone, and the next
get_or_create_team call for the key takes the miss path: it reloads the
persisted (post-update) configuration and returns a team freshly assembled
from it — never a team assembled from the pre-update configuration. -/
theorem C1_update_invalidates_and_rebuilds
    (st : ManagerState) (u i : String) (upd : HierarchyUpdates) (now now2 : Nat)
    (st' : ManagerState)
    (h : update_instance_hierarchy st u i upd now = Except.ok st') :
    cacheLookup st'.teams_cache (getCacheKey u i) = none ∧
    (findOne st'.db u i).isSome = true ∧
    (get_or_create_team st' u i now2).1 =
      assembleTeam ((findOne st'.db u i).getD default) st'.nextAlloc := by
  obtain ⟨inst0, hu, hi, rfl⟩ := update_shape h
  have hfind : findOne (postSave st u i inst0).db u i = some inst0 := by
    show findOne (saveDoc st.db inst0) u i = some inst0
    rw [← hu, ← hi]
    exact findOne_saveDoc st.db inst0
  have hcache : cacheLookup (postSave st u i inst0).teams_cache (getCacheKey u i) = none :=
    cacheLookup_delete_self st.teams_cache (getCacheKey u i)
  refine ⟨hcache, by rw [hfind]; rfl, ?_⟩
  simp [get_or_create_team, hcache, hfind]

def st0 : ManagerState := { teams_cache := emptyCache, db := [], nextAlloc := 0 }

def updW : HierarchyUpdates :=
  { router_instructions := some "route carefully", agents := some [] }

def stW1 : ManagerState :=
  match update_instance_hierarchy st0 "u1" "i1" updW 0 with
  | Except.ok s => s
  | Except.error _ => st0

/-- Witness for claim C1 at a concrete successful update. -/
theorem C1_witness :
    cacheLookup stW1.teams_cache (getCacheKey "u1" "i1") = none ∧
    (findOne stW1.db "u1" "i1").isSome = true ∧
    (get_or_create_team stW1 "u1" "i1" 1).1 =
      assembleTeam ((findOne stW1.db "u1" "i1").getD default) stW1.nextAlloc :=
  C1_update_invalidates_and_rebuilds st0 "u1" "i1" updW 0 1 stW1 rfl

/- ===== Claim C3 ===== -/

/-- Claim C3 (code-bug evaluation): a case-insensitively recognized provider
string and an already-typed enum are accepted, and a missing key succeeds with
GEMINI (the default "gemini" string parses by enum value); but an unknown
string and a non-string non-enum value do NOT fall back to gemini — those
paths execute the fallback expression ModelProvider.gemini of lines 74 and 78,
whose member is named GEMINI, so case-sensitive enum attribute access raises
AttributeError (only ValueError is caught) and normalization raises instead of
falling back, contradicting the claim. -/
theorem C3_provider_fallback_raises :
    normalizeProvider (some (RawProviderVal.str "OpenAI")) = Except.ok ModelProvider.OPENAI ∧
    (∀ p, normalizeProvider (some (RawProviderVal.enum p)) = Except.ok p) ∧
    normalizeProvider none = Except.ok ModelProvider.GEMINI ∧
    normalizeProvider (some (RawProviderVal.str "FOOBAR")) =
      Except.error "AttributeError: ModelProvider has no attribute gemini" ∧
    normalizeProvider (some RawProviderVal.other) =
      Except.error "AttributeError: ModelProvider has no attribute gemini" := by
  refine ⟨rfl, fun p => rfl, rfl, rfl, rfl⟩

/- ===== Claim C4 ===== -/

/-- Claim C4: the bare string "YFINANCE" and the record with type string
"yfinance" normalize to the same ToolConfig; an already-typed ToolConfig passes
through; a record with an enum-typed type field is taken as-is with its config;
and an unrecognized bare tool kind such as "FOOBAR" is dropped without raising
while the surrounding entries normalize exactly as they would alone. -/
theorem C4_tool_normalization :
    normalizeToolEntry (RawTool.str "YFINANCE") =
      some { type := ToolType.YFINANCE, config := none } ∧
    normalizeToolEntry (RawTool.record (some (RawToolTypeVal.str "yfinance")) none) =
      some { type := ToolType.YFINANCE, config := none } ∧
    (∀ tc, normalizeToolEntry (RawTool.spec tc) = some tc) ∧
    (∀ tt cfg, normalizeToolEntry (RawTool.record (some (RawToolTypeVal.enum tt)) cfg) =
        some { type := tt, config := cfg }) ∧
    (∀ pre post, normalizeTools (pre ++ RawTool.str "FOOBAR" :: post) =
        normalizeTools pre ++ normalizeTools post) := by
  refine ⟨by decide, by decide, fun tc => rfl, fun tt cfg => rfl, ?_⟩
  intro pre post
  have hdrop : normalizeToolEntry (RawTool.str "FOOBAR") = none := by decide
  simp [normalizeTools, List.filterMap_append, List.filterMap_cons, hdrop]

/- ===== Claim C7 ===== -/

/-- Claim C7: two get_or_create_team calls for the same key with no intervening
update return the same Team both times, and the second call leaves the state of
the first call completely unchanged (cache hit: no second assembly, no fresh
allocation, no store access). -/
theorem C7_get_or_create_idempotent (st : ManagerState) (u i : String) (now now2 : Nat) :
    (get_or_create_team (get_or_create_team st u i now).2 u i now2).1 =
      (get_or_create_team st u i now).1 ∧
    (get_or_create_team (get_or_create_team st u i now).2 u i now2).2 =
      (get_or_create_team st u i now).2 := by
  cases hc : cacheLookup st.teams_cache (getCacheKey u i) with
  | some t => simp [get_or_create_team, hc]
  | none =>
      cases hf : findOne st.db u i with
      | some inst => simp [get_or_create_team, hc, hf, cacheLookup_insert_self]
      | none => simp [get_or_create_team, hc, hf, cacheLookup_insert_self]

/- ===== Claim C9 ===== -/

/-- Claim C9: the chat operation answers with a session id equal to the
whatsapp_number the caller supplied — which is exactly the identifier the code
assigns to the team's session to select the conversational context before
running the turn (the separate session_id request field is not consulted). -/
theorem C9_chat_session_id (st : ManagerState) (req : ChatRequest) (now : Nat)
    (run : String → String) :
    (chat_with_agent st req now run).1.session_id = req.whatsapp_number ∧
    ((chat_with_agent st req now run).2.teams_cache
        (getCacheKey req.user_id req.instance_id)).map Team.session_id =
      some (some req.whatsapp_number) := by
  refine ⟨rfl, ?_⟩
  simp [chat_with_agent, cacheInsert]

/- ===== Claim C10 ===== -/

/-- Claim C10 counterexample: the two distinct pairs ("a:b", "c") and
("a", "b:c") produce the same cache key, so the claimed key distinctness for
all distinct pairs is false. -/
theorem C10_counterexample :
    getCacheKey "a:b" "c" = getCacheKey "a" "b:c" ∧
    ("a:b", "c") ≠ (("a", "b:c") : String × String) := by
  constructor
  · decide
  · decide

theorem append_colon_inj : ∀ (u1 u2 i1 i2 : List Char), ':' ∉ u1 → ':' ∉ u2 →
    u1 ++ ':' :: i1 = u2 ++ ':' :: i2 → u1 = u2 ∧ i1 = i2 := by
  intro u1
  induction u1 with
  | nil =>
      intro u2 i1 i2 h1 h2 h
      cases u2 with
      | nil =>
          simp only [List.nil_append] at h
          cases h
          exact ⟨rfl, rfl⟩
      | cons c u2t =>
          simp only [List.nil_append, List.cons_append, List.cons.injEq] at h
          obtain ⟨hc, _⟩ := h
          subst hc
          exact absurd (List.mem_cons_self _ _) h2
  | cons c u1t ih =>
      intro u2 i1 i2 h1 h2 h
      cases u2 with
      | nil =>
          simp only [List.cons_append, List.nil_append, List.cons.injEq] at h
          obtain ⟨hc, _⟩ := h
          subst hc
          exact absurd (List.mem_cons_self _ _) h1
      | cons c2 u2t =>
          simp only [List.cons_append, List.cons.injEq] at h
          obtain ⟨hc, ht⟩ := h
          have h1t : ':' ∉ u1t := fun hm => h1 (List.mem_cons_of_mem _ hm)
          have h2t : ':' ∉ u2t := fun hm => h2 (List.mem_cons_of_mem _ hm)
          obtain ⟨hu, hi⟩ := ih u2t i1 i2 h1t h2t ht
          exact ⟨by rw [hc, hu], hi⟩

/-- Claim C10 amended: the cache key map is injective on pairs whose user_id
contains no ':' separator, so for such pairs get_or_create_team and cache
invalidation never touch another pair's entry; distinctness can fail only when
a user_id contains ':' (as in the counterexample). -/
theorem C10_key_injective_when_colon_free (u1 i1 u2 i2 : String)
    (h1 : ':' ∉ u1.data) (h2 : ':' ∉ u2.data)
    (h : getCacheKey u1 i1 = getCacheKey u2 i2) : u1 = u2 ∧ i1 = i2 := by
  have hd : u1.data ++ ':' :: i1.data = u2.data ++ ':' :: i2.data := by
    have hdata := congrArg String.data h
    simpa [getCacheKey, String.data_append] using hdata
  obtain ⟨hu, hi⟩ := append_colon_inj u1.data u2.data i1.data i2.data h1 h2 hd
  exact ⟨String.ext hu, String.ext hi⟩

/-- Witness for claim C10 amended, at colon-free concrete user ids. -/
theorem C10_witness : ("alice" : String) = "alice" ∧ ("shop" : String) = "shop" :=
  C10_key_injective_when_colon_free "alice" "shop" "alice" "shop"
    (by decide) (by decide) rfl

/- ===== Claim C2 ===== -/

/-- On the update-existing path, the persisted document after a successful
update is exactly the merge of the found document with the updates dict. -/
theorem update_existing_find {st : ManagerState} {u i : String} {inst : AgentInstance}
    {upd : HierarchyUpdates} {now : Nat} {st' : ManagerState}
    (hfind : findOne st.db u i = some inst)
    (h : update_instance_hierarchy st u i upd now = Except.ok st') :
    findOne st'.db u i = some (mergeInstance inst upd) := by
  unfold update_instance_hierarchy at h
  rw [hfind] at h
  cases h
  show findOne (saveDoc st.db (mergeInstance inst upd)) u i = _
  obtain ⟨hu, hi⟩ := findOne_eq_some hfind
  have hsave := findOne_saveDoc st.db (mergeInstance inst upd)
  rw [mergeInstance_user_id, mergeInstance_instance_id, hu, hi] at hsave
  exact hsave

/-- Claim C2 (amended): against an existing configuration, the hierarchy-update
operation replaces the whole stored agent list only when the request's agents
field is present AND non-empty (the route's truthiness test treats a present
empty list exactly like an absent field, leaving the stored agents untouched);
present router instructions fully replace the prior text; a field that is
absent (None) leaves the corresponding stored field unchanged. -/
theorem C2_field_level_replace (st : ManagerState) (u i : String) (inst : AgentInstance)
    (now : Nat) (rOpt : Option String)
    (hfind : findOne st.db u i = some inst) :
    (∀ st', update_agent_hierarchy st ⟨u, i, rOpt, none⟩ now = Except.ok st' →
        (findOne st'.db u i).map AgentInstance.agents = some inst.agents ∧
        (findOne st'.db u i).map AgentInstance.router_instructions =
          some (rOpt.getD inst.router_instructions)) ∧
    (∀ st', update_agent_hierarchy st ⟨u, i, rOpt, some []⟩ now = Except.ok st' →
        (findOne st'.db u i).map AgentInstance.agents = some inst.agents ∧
        (findOne st'.db u i).map AgentInstance.router_instructions =
          some (rOpt.getD inst.router_instructions)) ∧
    (∀ l cs st', normalizeAgentsAux 0 l = Except.ok cs → l.isEmpty = false →
        update_agent_hierarchy st ⟨u, i, rOpt, some l⟩ now = Except.ok st' →
        (findOne st'.db u i).map AgentInstance.agents = some cs ∧
        (findOne st'.db u i).map AgentInstance.router_instructions =
          some (rOpt.getD inst.router_instructions)) := by
  refine ⟨?_, ?_, ?_⟩
  · intro st' h
    have hf := update_existing_find hfind h
    rw [hf]
    simp [mergeInstance_agents, mergeInstance_router]
  · intro st' h
    have hf := update_existing_find hfind h
    rw [hf]
    simp [mergeInstance_agents, mergeInstance_router]
  · intro l cs st' hnorm hne h
    simp only [update_agent_hierarchy, hne, Bool.false_eq_true, if_false, hnorm] at h
    have hf := update_existing_find hfind h
    rw [hf]
    simp [mergeInstance_agents, mergeInstance_router]

def agentA : HierarchicalAgentConfig :=
  { agent_id := "a1", name := "Analyst", role := "market analysis" }

def instA : AgentInstance :=
  { user_id := "u", instance_id := "i", router_instructions := "r0",
    agents := [agentA], created_at := 0, updated_at := 0 }

def stC2 : ManagerState := { teams_cache := emptyCache, db := [instA], nextAlloc := 0 }

/-- Claim C2 counterexample: an update whose agents field is present and equal
to the empty list succeeds but leaves the stored agent list untouched instead
of replacing it wholesale with the supplied empty list. -/
theorem C2_counterexample :
    (okState (update_agent_hierarchy stC2 ⟨"u", "i", none, some []⟩ 5)).bind
      (fun st' => (findOne st'.db "u" "i").map AgentInstance.agents) = some [agentA] ∧
    (okState (update_agent_hierarchy stC2 ⟨"u", "i", none, some []⟩ 5)).bind
      (fun st' => (findOne st'.db "u" "i").map AgentInstance.agents) ≠ some [] := by
  constructor
  · decide
  · decide

def raw1 : RawAgent :=
  { agent_id := some "id1", name := some "Analyst", role := some "market analysis",
    model_provider := some (RawProviderVal.enum ModelProvider.GEMINI),
    model_id := some "gemini-1.5-flash", tools := [], parent_id := none }

def cfg1 : HierarchicalAgentConfig :=
  { agent_id := "id1", name := "Analyst", role := "market analysis" }

def stW2 : ManagerState :=
  match update_agent_hierarchy stC2 ⟨"u", "i", some "r2", some [raw1]⟩ 5 with
  | Except.ok s => s
  | Except.error _ => stC2

/-- Witness for claim C2 at a concrete non-empty update: the agent list is
replaced wholesale by the normalized request list, the instructions replaced. -/
theorem C2_witness :
    (findOne stW2.db "u" "i").map AgentInstance.agents = some [cfg1] ∧
    (findOne stW2.db "u" "i").map AgentInstance.router_instructions = some "r2" :=
  (C2_field_level_replace stC2 "u" "i" instA 5 (some "r2") rfl).2.2
    [raw1] [cfg1] stW2 rfl rfl rfl

/- ===== Claim C5 ===== -/

def reqC5 : HierarchyUpdateRequest :=
  { user_id := "u1", instance_id := "i1", router_instructions := none, agents := none }

/-- Claim C5 (code-bug evaluation): for a key with no stored configuration, a
hierarchy-update request that supplies neither field does not persist a
defaulted configuration — the create path passes the explicit None values of
the updates dict into the AgentInstance constructor, whose non-Optional fields
reject None, so the whole operation raises a validation error instead of
succeeding with documented defaults. -/
theorem C5_create_with_defaults_fails :
    update_agent_hierarchy st0 reqC5 0 =
      Except.error "validation error: router_instructions may not be None" := rfl

/- ===== Claim C6 ===== -/

def instC6 : AgentInstance :=
  { user_id := "u1", instance_id := "i1", router_instructions := "old instructions",
    agents := [], created_at := 0, updated_at := 0 }

def stC6 : ManagerState := { teams_cache := emptyCache, db := [instC6], nextAlloc := 0 }

/-- Claim C6 (code-bug evaluation): a successful update of an existing
configuration at time 5 persists the new router instructions but leaves
updated_at at its stale pre-update value 0 — the update-existing path sets
only the fields named in the updates dict and never refreshes updated_at. -/
theorem C6_updated_at_stale_on_update :
    (okState (update_instance_hierarchy stC6 "u1" "i1"
        { router_instructions := some "new instructions", agents := none } 5)).bind
      (fun st' => (findOne st'.db "u1" "i1").map
        (fun d => (d.router_instructions, d.updated_at))) =
      some ("new instructions", 0) := by decide

/- ===== Claim C8 ===== -/

def dInstW : AgentInstance := AgentInstance.defaultDoc "u1" "i1" 0

def initTwo : TwoCalls := { shared := st0, co0 := CoSt.start, co1 := CoSt.start }

/-- Claim C8 counterexample: under the interleaving first-first-second-first-
second of two concurrent get_or_create_team calls for the never-before-seen
key ("u1","i1"), both calls miss the cache and both assemble: the allocation
counter ends at 2 (two Team constructions) and the two calls observe distinct
Team instances — refuting at-most-one-build-in-flight. -/
theorem C8_counterexample :
    (runSched "u1" "i1" 0 [false, false, true, false, true] initTwo).shared.nextAlloc = 2 ∧
    (runSched "u1" "i1" 0 [false, false, true, false, true] initTwo).co0 =
      CoSt.done (assembleTeam dInstW 0) ∧
    (runSched "u1" "i1" 0 [false, false, true, false, true] initTwo).co1 =
      CoSt.done (assembleTeam dInstW 1) ∧
    assembleTeam dInstW 0 ≠ assembleTeam dInstW 1 := by
  refine ⟨rfl, rfl, rfl, by decide⟩

set_option maxRecDepth 16384

/-- Claim C8 (amended): the code provides no single-flight guarantee — two
concurrent calls for a fresh key can interleave so that each assembles its own
team, with the last writer's team left in the cache; only when the two calls
do not overlap does the second hit the cache, giving exactly one assembly and
the same Team observed by both. -/
theorem C8_no_single_flight :
    ((runSched "u1" "i1" 0 [false, false, true, false, true] initTwo).shared.nextAlloc = 2 ∧
     cacheLookup
        (runSched "u1" "i1" 0 [false, false, true, false, true] initTwo).shared.teams_cache
        (getCacheKey "u1" "i1") = some (assembleTeam dInstW 1)) ∧
    ((runSched "u1" "i1" 0 [false, false, false, true] initTwo).shared.nextAlloc = 1 ∧
     (runSched "u1" "i1" 0 [false, false, false, true] initTwo).co0 =
       CoSt.done (assembleTeam dInstW 0) ∧
     (runSched "u1" "i1" 0 [false, false, false, true] initTwo).co1 =
       CoSt.done (assembleTeam dInstW 0)) := by
  exact ⟨⟨rfl, by decide⟩, rfl, rfl, rfl⟩
